import Mathlib

/-!
Verification of the data-access layer and route layer of a small CRUD
microservice (FastAPI + MongoDB, "soldier" records).

The embedding models the MongoDB collection as a list of documents plus a
counter generating fresh internal ids, with the unique index on the business
key ID in force (the store is an external collaborator; its documented
behaviour with the unique index is what the repository code relies on).
Document field values that can be overwritten with null by a partial update
are modelled as Option values. Python exceptions raised by the DAL
(RuntimeError for unavailability, ValueError for duplicate keys) become an
Except-valued result, and the route layer's HTTPException becomes an
Except-valued HTTP result carrying the status code and detail string.
-/

namespace MongoCrud

/-- A document stored in the collection (shape `\x7b_id, ID, first_name,
last_name, phone_number, rank\x7d`). `oid` is the store-generated internal
`_id` (an ObjectId, modelled as a Nat before string coercion). Field values
are Option because a partial update can explicitly write null. -/
structure Doc where
  oid : Nat
  ID : Int
  first_name : Option String
  last_name : Option String
  phone_number : Option Int
  rank : Option String
deriving Repr, DecidableEq

/-- A document as returned by the DAL: the internal `_id` has been coerced
to its string form (`item["_id"] = str(item["_id"])`). -/
structure DocOut where
  oid : String
  ID : Int
  first_name : Option String
  last_name : Option String
  phone_number : Option Int
  rank : Option String
deriving Repr, DecidableEq

/-- The DAL's `item["_id"] = str(item["_id"])` coercion. -/
def Doc.toOut (d : Doc) : DocOut :=
  ⟨toString d.oid, d.ID, d.first_name, d.last_name, d.phone_number, d.rank⟩

/-- The collection: documents in natural (insertion) order, plus the next
fresh internal id the store will generate. -/
structure Store where
  docs : List Doc
  nextOid : Nat
deriving Repr, DecidableEq

/-- `models.SoldierCreate`: all fields required and non-null. -/
structure SoldierCreate where
  first_name : String
  last_name : String
  phone_number : Int
  rank : String
  ID : Int
deriving Repr, DecidableEq

/-- `models.SoldierUpdate`: every field optional. The outer Option is
pydantic field presence (unset vs explicitly supplied); the inner Option is
the supplied value, which may itself be null. `model_dump(exclude_unset=True)`
keeps exactly the fields whose outer Option is `some`. -/
structure SoldierUpdate where
  first_name : Option (Option String) := none
  last_name : Option (Option String) := none
  phone_number : Option (Option Int) := none
  rank : Option (Option String) := none
deriving Repr, DecidableEq

/-- Whether `item_update.model_dump(exclude_unset=True)` is the empty dict:
no field of the update was supplied. -/
def SoldierUpdate.isEmptyDump (u : SoldierUpdate) : Bool :=
  u.first_name.isNone && u.last_name.isNone && u.phone_number.isNone && u.rank.isNone

/-- Mongo `$set` with the dict `model_dump(exclude_unset=True)`: each
supplied field (outer `some`) is written with its supplied value (possibly
null); unset fields, `ID` and `_id` are untouched. -/
def Doc.applySet (d : Doc) (u : SoldierUpdate) : Doc :=
  { d with
    first_name := u.first_name.getD d.first_name
    last_name := u.last_name.getD d.last_name
    phone_number := u.phone_number.getD d.phone_number
    rank := u.rank.getD d.rank }

/-- The document `insert_one` builds from `item.model_dump()` together with
the store-generated `_id`. -/
def SoldierCreate.toDoc (item : SoldierCreate) (oid : Nat) : Doc :=
  ⟨oid, item.ID, some item.first_name, some item.last_name,
    some item.phone_number, some item.rank⟩

/-- Mongo `find_one_and_update(filter ID, set, return post-image)`: updates
the first document matching the id and returns its post-image, or returns
none and leaves the list unchanged when no document matches. -/
def setFirstMatch (id : Int) (u : SoldierUpdate) : List Doc → Option Doc × List Doc
  | [] => (none, [])
  | d :: ds =>
    if d.ID == id then (some (d.applySet u), d.applySet u :: ds)
    else
      let r := setFirstMatch id u ds
      (r.1, d :: r.2)

/-- Mongo `delete_one(filter ID)`: removes the first document matching the
id, returning the deleted count (0 or 1) and the remaining list. -/
def deleteFirstMatch (id : Int) : List Doc → Nat × List Doc
  | [] => (0, [])
  | d :: ds =>
    if d.ID == id then (1, ds)
    else
      let r := deleteFirstMatch id ds
      (r.1, d :: r.2)

/-- The DAL's error surface: `RuntimeError` (store unavailable or store
fault) and `ValueError` (duplicate business key on create). -/
inductive DalError where
  | unavailable (msg : String)
  | conflict (msg : String)
deriving Repr, DecidableEq

/-- The message of the RuntimeError raised by every DAL method when
`self.collection is None`. -/
def connUnavailableMsg : String := "Database connection is not available."

/-- `DataLoader.get_all_data`: gate on the collection handle, then return
every document with `_id` coerced to string. -/
def get_all_data (coll : Option Store) : Except DalError (List DocOut) :=
  match coll with
  | none => .error (.unavailable connUnavailableMsg)
  | some s => .ok (s.docs.map Doc.toOut)

/-- `DataLoader.get_item_by_id`: gate on the collection handle, then
`find_one` on ID, coercing `_id` to string when found. -/
def get_item_by_id (coll : Option Store) (item_id : Int) :
    Except DalError (Option DocOut) :=
  match coll with
  | none => .error (.unavailable connUnavailableMsg)
  | some s => .ok ((s.docs.find? (fun d => d.ID == item_id)).map Doc.toOut)

/-- `DataLoader.create_item`: gate on the collection handle; `insert_one`
(the unique index on ID raises DuplicateKeyError on a duplicate, turned into
a ValueError and nothing is inserted); on success re-read the document by
its generated `_id`. The second component is the collection after the call. -/
def create_item (coll : Option Store) (item : SoldierCreate) :
    Except DalError (Option DocOut) × Option Store :=
  match coll with
  | none => (.error (.unavailable connUnavailableMsg), none)
  | some s =>
    if s.docs.any (fun d => d.ID == item.ID) then
      (.error (.conflict ("Item with ID " ++ toString item.ID ++ " already exists.")),
        some s)
    else
      let s2 : Store := ⟨s.docs ++ [item.toDoc s.nextOid], s.nextOid + 1⟩
      ((.ok ((s2.docs.find? (fun d => d.oid == s.nextOid)).map Doc.toOut)), some s2)

/-- `DataLoader.update_item`: gate on the collection handle; compute
`model_dump(exclude_unset=True)`; if empty, short-circuit to
`get_item_by_id`; otherwise `find_one_and_update` returning the post-image.
The second component is the collection after the call. -/
def update_item (coll : Option Store) (item_id : Int) (item_update : SoldierUpdate) :
    Except DalError (Option DocOut) × Option Store :=
  match coll with
  | none => (.error (.unavailable connUnavailableMsg), none)
  | some s =>
    if item_update.isEmptyDump then
      (get_item_by_id (some s) item_id, some s)
    else
      let r := setFirstMatch item_id item_update s.docs
      (.ok (r.1.map Doc.toOut), some ⟨r.2, s.nextOid⟩)

/-- `DataLoader.delete_item`: gate on the collection handle; `delete_one`
and report whether `deleted_count > 0`. The second component is the
collection after the call. -/
def delete_item (coll : Option Store) (item_id : Int) :
    Except DalError Bool × Option Store :=
  match coll with
  | none => (.error (.unavailable connUnavailableMsg), none)
  | some s =>
    let r := deleteFirstMatch item_id s.docs
    (.ok (decide (0 < r.1)), some ⟨r.2, s.nextOid⟩)

/-- The route layer's `HTTPException`: a status code and a detail string. -/
structure HttpError where
  status_code : Nat
  detail : String
deriving Repr, DecidableEq

/-- `soldiers.validate_soldier_id`: a path id that is not a positive integer
raises 422 before anything else runs. -/
def validate_soldier_id (soldier_id : Int) : Except HttpError Unit :=
  if soldier_id ≤ 0 then
    .error ⟨422, "Soldier ID must be a positive integer"⟩
  else .ok ()

/-- `POST /soldiersdb/` (`soldiers.create_soldier`): ValueError from the DAL
becomes 409, RuntimeError becomes 503; an unreachable empty create result
would fall into the catch-all 500. The second component is the collection
after the call. -/
def create_soldier (coll : Option Store) (soldier : SoldierCreate) :
    Except HttpError DocOut × Option Store :=
  match create_item coll soldier with
  | (.ok (some d), s2) => (.ok d, s2)
  | (.ok none, s2) => (.error ⟨500, "An unexpected error occurred"⟩, s2)
  | (.error (.conflict msg), s2) => (.error ⟨409, msg⟩, s2)
  | (.error (.unavailable msg), s2) => (.error ⟨503, msg⟩, s2)

/-- `GET /soldiersdb/` (`soldiers.read_all_soldiers`): RuntimeError becomes
503; any other failure would fall into the catch-all 500. -/
def read_all_soldiers (coll : Option Store) : Except HttpError (List DocOut) :=
  match get_all_data coll with
  | .ok xs => .ok xs
  | .error (.unavailable msg) => .error ⟨503, msg⟩
  | .error (.conflict _) => .error ⟨500, "An unexpected error occurred"⟩

/-- `GET /soldiersdb/id` (`soldiers.read_soldier_by_id`): validate the path
id, then turn an empty DAL result into 404 and RuntimeError into 503. -/
def read_soldier_by_id (coll : Option Store) (soldier_id : Int) :
    Except HttpError DocOut :=
  match validate_soldier_id soldier_id with
  | .error e => .error e
  | .ok _ =>
    match get_item_by_id coll soldier_id with
    | .ok (some d) => .ok d
    | .ok none =>
      .error ⟨404, "Soldier with ID " ++ toString soldier_id ++ " not found"⟩
    | .error (.unavailable msg) => .error ⟨503, msg⟩
    | .error (.conflict _) => .error ⟨500, "An unexpected error occurred"⟩

/-- `PUT /soldiersdb/id` (`soldiers.update_soldier`): validate the path id,
then turn an empty DAL result into 404 and RuntimeError into 503. The second
component is the collection after the call. -/
def update_soldier (coll : Option Store) (soldier_id : Int)
    (soldier_update : SoldierUpdate) : Except HttpError DocOut × Option Store :=
  match validate_soldier_id soldier_id with
  | .error e => (.error e, coll)
  | .ok _ =>
    match update_item coll soldier_id soldier_update with
    | (.ok (some d), s2) => (.ok d, s2)
    | (.ok none, s2) =>
      (.error ⟨404, "Soldier with ID " ++ toString soldier_id ++ " not found to update"⟩, s2)
    | (.error (.unavailable msg), s2) => (.error ⟨503, msg⟩, s2)
    | (.error (.conflict _), s2) => (.error ⟨500, "An unexpected error occurred"⟩, s2)

/-- `DELETE /soldiersdb/id` (`soldiers.delete_soldier`): validate the path
id, then turn a false DAL result into 404 and RuntimeError into 503; on
success 204 with empty body. The second component is the collection after
the call. -/
def delete_soldier (coll : Option Store) (soldier_id : Int) :
    Except HttpError Unit × Option Store :=
  match validate_soldier_id soldier_id with
  | .error e => (.error e, coll)
  | .ok _ =>
    match delete_item coll soldier_id with
    | (.ok true, s2) => (.ok (), s2)
    | (.ok false, s2) =>
      (.error ⟨404, "Soldier with ID " ++ toString soldier_id ++ " not found to delete"⟩, s2)
    | (.error (.unavailable msg), s2) => (.error ⟨503, msg⟩, s2)
    | (.error (.conflict _), s2) => (.error ⟨500, "An unexpected error occurred"⟩, s2)

/-- The connection-relevant state of a `DataLoader` instance: the client
handle (`some b` means a client object is held, with `b` true while the
underlying connection is open), the database handle, the collection handle
(carrying the collection contents when held), and whether the unique index
on ID has been ensured on this connection. -/
structure DataLoader where
  client : Option Bool
  db : Bool
  collection : Option Store
  indexEnsured : Bool
deriving Repr, DecidableEq

/-- `DataLoader.__init__`: client, db and collection all start as None. -/
def DataLoader.init : DataLoader := ⟨none, false, none, false⟩

/-- The `serverSelectionTimeoutMS=5000` argument `connect` passes to
`AsyncMongoClient`. -/
def connectTimeoutMS : Nat := 5000

/-- `DataLoader._setup_indexes`: when a collection handle is held, try
`create_index("ID", unique=True)`; a PyMongoError is caught HERE and only
logged, so a failing index creation changes nothing and raises nothing.
`createIndexOk` says whether the store operation succeeds. -/
def setup_indexes (dl : DataLoader) (createIndexOk : Bool) : DataLoader :=
  match dl.collection with
  | none => dl
  | some _ => if createIndexOk then { dl with indexEnsured := true } else dl

/-- `DataLoader.connect`: a single attempt. Build the client with a 5000 ms
server-selection timeout, ping, take the db and collection handles, then run
`_setup_indexes` (which swallows its own failures). A PyMongoError in the
client construction or the ping (`pingOk = false`) is caught and sets
client, db and collection to None. `freshColl` is the collection the store
hands back on success; `createIndexOk` is threaded to `_setup_indexes`. -/
def connect (dl : DataLoader) (pingOk : Bool) (freshColl : Store)
    (createIndexOk : Bool) : DataLoader :=
  if pingOk then
    setup_indexes
      { dl with client := some true, db := true, collection := some freshColl }
      createIndexOk
  else
    { dl with client := none, db := false, collection := none }

/-- `DataLoader.disconnect`: if a client object is held, call close() on it;
the `client`, `db` and `collection` attributes are never reassigned. -/
def disconnect (dl : DataLoader) : DataLoader :=
  match dl.client with
  | some _ => { dl with client := some false }
  | none => dl

/-- `GET /health` (`main.detailed_health_check`): 503 when the collection
handle is None, otherwise a body whose status is ok and whose
database_status is connected. -/
def detailed_health_check (dl : DataLoader) : Except HttpError (String × String) :=
  match dl.collection with
  | none => .error ⟨503, "Database not available"⟩
  | some _ => .ok ("ok", "connected")

/-! ### Helper lemmas about the store operations -/

/-- When no document matches the id, `find_one_and_update` returns none and
leaves the collection unchanged. -/
theorem setFirstMatch_no_match (id : Int) (u : SoldierUpdate) :
    ∀ l : List Doc, (∀ d ∈ l, ¬ (d.ID == id) = true) → setFirstMatch id u l = (none, l)
  | [], _ => rfl
  | x :: xs, h => by
    have hx : ¬ (x.ID == id) = true := h x (List.mem_cons_self x xs)
    have ih := setFirstMatch_no_match id u xs (fun d hd => h d (List.mem_cons_of_mem x hd))
    simp [setFirstMatch, hx, ih]

/-- When no document matches the id, `delete_one` deletes nothing and leaves
the collection unchanged. -/
theorem deleteFirstMatch_no_match (id : Int) :
    ∀ l : List Doc, (∀ d ∈ l, ¬ (d.ID == id) = true) → deleteFirstMatch id l = (0, l)
  | [], _ => rfl
  | x :: xs, h => by
    have hx : ¬ (x.ID == id) = true := h x (List.mem_cons_self x xs)
    have ih := deleteFirstMatch_no_match id xs (fun d hd => h d (List.mem_cons_of_mem x hd))
    simp [deleteFirstMatch, hx, ih]

/-- When `find_one` locates a document, `find_one_and_update` rewrites
exactly that occurrence and returns its post-image; every other document is
carried over unchanged in place. -/
theorem setFirstMatch_found (id : Int) (u : SoldierUpdate) :
    ∀ (l : List Doc) (d : Doc), l.find? (fun x => x.ID == id) = some d →
      ∃ l1 l2, l = l1 ++ d :: l2 ∧
        setFirstMatch id u l = (some (d.applySet u), l1 ++ d.applySet u :: l2)
  | [], d, h => by simp at h
  | x :: xs, d, h => by
    by_cases hx : (x.ID == id) = true
    · have hh : List.find? (fun y => y.ID == id) (x :: xs) = some x :=
        List.find?_cons_of_pos xs hx
      rw [hh] at h
      obtain rfl : x = d := by injection h
      exact ⟨[], xs, rfl, by simp [setFirstMatch, hx]⟩
    · have hh : List.find? (fun y => y.ID == id) (x :: xs) =
          List.find? (fun y => y.ID == id) xs :=
        List.find?_cons_of_neg xs hx
      rw [hh] at h
      obtain ⟨l1, l2, hsplit, hset⟩ := setFirstMatch_found id u xs d h
      exact ⟨x :: l1, l2, by simp [hsplit], by simp [setFirstMatch, hx, hset]⟩

/-! ### Claim theorems -/

/-- Claim C1: creating an item whose ID is already present in the store
fails with the duplicate-key ValueError message, the POST route maps it to
HTTP 409, and the collection after the call is exactly the collection
before it, so the existing record is untouched. -/
theorem create_duplicate_id_conflict (s : Store) (item : SoldierCreate) (d : Doc)
    (hd : d ∈ s.docs) (hID : d.ID = item.ID) :
    create_item (some s) item =
      (.error (.conflict ("Item with ID " ++ toString item.ID ++ " already exists.")),
        some s) ∧
    create_soldier (some s) item =
      (.error ⟨409, "Item with ID " ++ toString item.ID ++ " already exists."⟩, some s) := by
  have hany : s.docs.any (fun x => x.ID == item.ID) = true :=
    List.any_eq_true.mpr ⟨d, hd, by simp [hID]⟩
  exact ⟨by simp [create_item, hany], by simp [create_soldier, create_item, hany]⟩

theorem create_duplicate_id_conflict_witness :
    create_item (some ⟨[⟨0, 7, some "A", some "B", some 1234567, some "Cpl"⟩], 1⟩)
        ⟨"X", "Y", 5550000, "Sgt", 7⟩ =
      (.error (.conflict ("Item with ID " ++ toString (7 : Int) ++ " already exists.")),
        some ⟨[⟨0, 7, some "A", some "B", some 1234567, some "Cpl"⟩], 1⟩) ∧
    create_soldier (some ⟨[⟨0, 7, some "A", some "B", some 1234567, some "Cpl"⟩], 1⟩)
        ⟨"X", "Y", 5550000, "Sgt", 7⟩ =
      (.error ⟨409, "Item with ID " ++ toString (7 : Int) ++ " already exists."⟩,
        some ⟨[⟨0, 7, some "A", some "B", some 1234567, some "Cpl"⟩], 1⟩) :=
  create_duplicate_id_conflict _ _ ⟨0, 7, some "A", some "B", some 1234567, some "Cpl"⟩
    (List.mem_singleton.mpr rfl) rfl

/-- Claim C2: with no collection handle, every DAL method fails with the
RuntimeError message without touching the store, every CRUD route maps that
to HTTP 503, and GET /health returns 503. -/
theorem disconnected_everything_unavailable (dl : DataLoader) (id : Int)
    (item : SoldierCreate) (u : SoldierUpdate)
    (hdl : dl.collection = none) (hpos : 0 < id) :
    get_all_data dl.collection = .error (.unavailable connUnavailableMsg) ∧
    get_item_by_id dl.collection id = .error (.unavailable connUnavailableMsg) ∧
    create_item dl.collection item = (.error (.unavailable connUnavailableMsg), none) ∧
    update_item dl.collection id u = (.error (.unavailable connUnavailableMsg), none) ∧
    delete_item dl.collection id = (.error (.unavailable connUnavailableMsg), none) ∧
    create_soldier dl.collection item = (.error ⟨503, connUnavailableMsg⟩, none) ∧
    read_all_soldiers dl.collection = .error ⟨503, connUnavailableMsg⟩ ∧
    read_soldier_by_id dl.collection id = .error ⟨503, connUnavailableMsg⟩ ∧
    update_soldier dl.collection id u = (.error ⟨503, connUnavailableMsg⟩, none) ∧
    delete_soldier dl.collection id = (.error ⟨503, connUnavailableMsg⟩, none) ∧
    detailed_health_check dl = .error ⟨503, "Database not available"⟩ := by
  have hnot : ¬ id ≤ 0 := by omega
  rw [hdl]
  refine ⟨rfl, rfl, rfl, rfl, rfl, rfl, rfl, ?_, ?_, ?_, ?_⟩
  · simp [read_soldier_by_id, validate_soldier_id, hnot, get_item_by_id]
  · simp [update_soldier, validate_soldier_id, hnot, update_item]
  · simp [delete_soldier, validate_soldier_id, hnot, delete_item]
  · simp [detailed_health_check, hdl]

theorem disconnected_everything_unavailable_witness :
    get_all_data DataLoader.init.collection = .error (.unavailable connUnavailableMsg) ∧
    get_item_by_id DataLoader.init.collection 1 = .error (.unavailable connUnavailableMsg) ∧
    create_item DataLoader.init.collection ⟨"A", "B", 1234567, "Cpl", 7⟩ =
      (.error (.unavailable connUnavailableMsg), none) ∧
    update_item DataLoader.init.collection 1 ⟨none, none, none, none⟩ =
      (.error (.unavailable connUnavailableMsg), none) ∧
    delete_item DataLoader.init.collection 1 = (.error (.unavailable connUnavailableMsg), none) ∧
    create_soldier DataLoader.init.collection ⟨"A", "B", 1234567, "Cpl", 7⟩ =
      (.error ⟨503, connUnavailableMsg⟩, none) ∧
    read_all_soldiers DataLoader.init.collection = .error ⟨503, connUnavailableMsg⟩ ∧
    read_soldier_by_id DataLoader.init.collection 1 = .error ⟨503, connUnavailableMsg⟩ ∧
    update_soldier DataLoader.init.collection 1 ⟨none, none, none, none⟩ =
      (.error ⟨503, connUnavailableMsg⟩, none) ∧
    delete_soldier DataLoader.init.collection 1 = (.error ⟨503, connUnavailableMsg⟩, none) ∧
    detailed_health_check DataLoader.init = .error ⟨503, "Database not available"⟩ :=
  disconnected_everything_unavailable DataLoader.init 1 ⟨"A", "B", 1234567, "Cpl", 7⟩
    ⟨none, none, none, none⟩ rfl (by decide)

/-- Claim C4: an update whose `model_dump(exclude_unset=True)` is empty
returns exactly the result of `get_item_by_id` and leaves the collection
handle and contents unchanged; on a held collection that result is the
current record mapped through the string coercion of `_id` — `some` exactly
when the id exists, `none` (hence 404 at the route layer) otherwise. -/
theorem update_no_fields_is_get (coll : Option Store) (id : Int) (u : SoldierUpdate)
    (h : u.isEmptyDump = true) :
    update_item coll id u = (get_item_by_id coll id, coll) ∧
    ∀ s : Store, coll = some s →
      get_item_by_id coll id = .ok ((s.docs.find? (fun d => d.ID == id)).map Doc.toOut) := by
  constructor
  · cases coll with
    | none => rfl
    | some s => simp [update_item, h]
  · rintro s rfl
    rfl

theorem update_no_fields_is_get_witness :
    update_item (some ⟨[⟨0, 7, some "A", some "B", some 1234567, some "Cpl"⟩], 1⟩) 7
        ⟨none, none, none, none⟩ =
      (get_item_by_id (some ⟨[⟨0, 7, some "A", some "B", some 1234567, some "Cpl"⟩], 1⟩) 7,
        some ⟨[⟨0, 7, some "A", some "B", some 1234567, some "Cpl"⟩], 1⟩) ∧
    ∀ s : Store,
      (some ⟨[⟨0, 7, some "A", some "B", some 1234567, some "Cpl"⟩], 1⟩ : Option Store) = some s →
      get_item_by_id (some ⟨[⟨0, 7, some "A", some "B", some 1234567, some "Cpl"⟩], 1⟩) 7 =
        .ok ((s.docs.find? (fun d => d.ID == 7)).map Doc.toOut) :=
  update_no_fields_is_get _ 7 ⟨none, none, none, none⟩ rfl

/-- Claim C7: every id-keyed route rejects a non-positive path id with 422
and the fixed detail message, for every connection state, and returns the
collection untouched — the Repository is never invoked. -/
theorem nonpositive_id_rejected_422 (coll : Option Store) (id : Int) (u : SoldierUpdate)
    (h : id ≤ 0) :
    read_soldier_by_id coll id = .error ⟨422, "Soldier ID must be a positive integer"⟩ ∧
    update_soldier coll id u = (.error ⟨422, "Soldier ID must be a positive integer"⟩, coll) ∧
    delete_soldier coll id = (.error ⟨422, "Soldier ID must be a positive integer"⟩, coll) := by
  refine ⟨?_, ?_, ?_⟩ <;>
    simp [read_soldier_by_id, update_soldier, delete_soldier, validate_soldier_id, h]

theorem nonpositive_id_rejected_422_witness :
    read_soldier_by_id none 0 = .error ⟨422, "Soldier ID must be a positive integer"⟩ ∧
    update_soldier none 0 ⟨none, none, none, some (some "Sgt")⟩ =
      (.error ⟨422, "Soldier ID must be a positive integer"⟩, none) ∧
    delete_soldier none 0 = (.error ⟨422, "Soldier ID must be a positive integer"⟩, none) :=
  nonpositive_id_rejected_422 none 0 ⟨none, none, none, some (some "Sgt")⟩ (by decide)

/-- Claim C3: updating an existing record with at least one supplied field
rewrites exactly that record in place: the collection splits as
`l1 ++ d :: l2` before and `l1 ++ d.applySet u :: l2` after, so every other
record is carried over unchanged; on the updated record the store-internal
id and ID keep their prior values, every supplied field takes the supplied
value and every unset field keeps its prior value. -/
theorem update_changes_exactly_supplied_fields (s : Store) (id : Int)
    (u : SoldierUpdate) (d : Doc) (hne : u.isEmptyDump = false)
    (hfind : s.docs.find? (fun x => x.ID == id) = some d) :
    ∃ l1 l2,
      s.docs = l1 ++ d :: l2 ∧
      update_item (some s) id u =
        (.ok (some (Doc.toOut (d.applySet u))),
          some ⟨l1 ++ d.applySet u :: l2, s.nextOid⟩) ∧
      (d.applySet u).oid = d.oid ∧
      (d.applySet u).ID = d.ID ∧
      (u.first_name = none → (d.applySet u).first_name = d.first_name) ∧
      (∀ v, u.first_name = some v → (d.applySet u).first_name = v) ∧
      (u.last_name = none → (d.applySet u).last_name = d.last_name) ∧
      (∀ v, u.last_name = some v → (d.applySet u).last_name = v) ∧
      (u.phone_number = none → (d.applySet u).phone_number = d.phone_number) ∧
      (∀ v, u.phone_number = some v → (d.applySet u).phone_number = v) ∧
      (u.rank = none → (d.applySet u).rank = d.rank) ∧
      (∀ v, u.rank = some v → (d.applySet u).rank = v) := by
  obtain ⟨l1, l2, hsplit, hset⟩ := setFirstMatch_found id u s.docs d hfind
  refine ⟨l1, l2, hsplit, ?_, rfl, rfl, ?_, ?_, ?_, ?_, ?_, ?_, ?_, ?_⟩
  · simp [update_item, hne, hset]
  all_goals
    first
      | (intro h; simp [Doc.applySet, h])
      | (intro v h; simp [Doc.applySet, h])

theorem update_changes_exactly_supplied_fields_witness :
    ∃ l1 l2,
      (⟨[⟨0, 7, some "A", some "B", some 1234567, some "Cpl"⟩], 1⟩ : Store).docs =
        l1 ++ (⟨0, 7, some "A", some "B", some 1234567, some "Cpl"⟩ : Doc) :: l2 ∧
      update_item (some ⟨[⟨0, 7, some "A", some "B", some 1234567, some "Cpl"⟩], 1⟩) 7
          ⟨none, none, none, some (some "Sgt")⟩ =
        (.ok (some (Doc.toOut (Doc.applySet
            ⟨0, 7, some "A", some "B", some 1234567, some "Cpl"⟩
            ⟨none, none, none, some (some "Sgt")⟩))),
          some ⟨l1 ++ Doc.applySet ⟨0, 7, some "A", some "B", some 1234567, some "Cpl"⟩
              ⟨none, none, none, some (some "Sgt")⟩ :: l2, 1⟩) ∧
      (Doc.applySet ⟨0, 7, some "A", some "B", some 1234567, some "Cpl"⟩
          ⟨none, none, none, some (some "Sgt")⟩).oid =
        (⟨0, 7, some "A", some "B", some 1234567, some "Cpl"⟩ : Doc).oid ∧
      (Doc.applySet ⟨0, 7, some "A", some "B", some 1234567, some "Cpl"⟩
          ⟨none, none, none, some (some "Sgt")⟩).ID =
        (⟨0, 7, some "A", some "B", some 1234567, some "Cpl"⟩ : Doc).ID ∧
      ((⟨none, none, none, some (some "Sgt")⟩ : SoldierUpdate).first_name = none →
        (Doc.applySet ⟨0, 7, some "A", some "B", some 1234567, some "Cpl"⟩
            ⟨none, none, none, some (some "Sgt")⟩).first_name =
          (⟨0, 7, some "A", some "B", some 1234567, some "Cpl"⟩ : Doc).first_name) ∧
      (∀ v, (⟨none, none, none, some (some "Sgt")⟩ : SoldierUpdate).first_name = some v →
        (Doc.applySet ⟨0, 7, some "A", some "B", some 1234567, some "Cpl"⟩
            ⟨none, none, none, some (some "Sgt")⟩).first_name = v) ∧
      ((⟨none, none, none, some (some "Sgt")⟩ : SoldierUpdate).last_name = none →
        (Doc.applySet ⟨0, 7, some "A", some "B", some 1234567, some "Cpl"⟩
            ⟨none, none, none, some (some "Sgt")⟩).last_name =
          (⟨0, 7, some "A", some "B", some 1234567, some "Cpl"⟩ : Doc).last_name) ∧
      (∀ v, (⟨none, none, none, some (some "Sgt")⟩ : SoldierUpdate).last_name = some v →
        (Doc.applySet ⟨0, 7, some "A", some "B", some 1234567, some "Cpl"⟩
            ⟨none, none, none, some (some "Sgt")⟩).last_name = v) ∧
      ((⟨none, none, none, some (some "Sgt")⟩ : SoldierUpdate).phone_number = none →
        (Doc.applySet ⟨0, 7, some "A", some "B", some 1234567, some "Cpl"⟩
            ⟨none, none, none, some (some "Sgt")⟩).phone_number =
          (⟨0, 7, some "A", some "B", some 1234567, some "Cpl"⟩ : Doc).phone_number) ∧
      (∀ v, (⟨none, none, none, some (some "Sgt")⟩ : SoldierUpdate).phone_number = some v →
        (Doc.applySet ⟨0, 7, some "A", some "B", some 1234567, some "Cpl"⟩
            ⟨none, none, none, some (some "Sgt")⟩).phone_number = v) ∧
      ((⟨none, none, none, some (some "Sgt")⟩ : SoldierUpdate).rank = none →
        (Doc.applySet ⟨0, 7, some "A", some "B", some 1234567, some "Cpl"⟩
            ⟨none, none, none, some (some "Sgt")⟩).rank =
          (⟨0, 7, some "A", some "B", some 1234567, some "Cpl"⟩ : Doc).rank) ∧
      (∀ v, (⟨none, none, none, some (some "Sgt")⟩ : SoldierUpdate).rank = some v →
        (Doc.applySet ⟨0, 7, some "A", some "B", some 1234567, some "Cpl"⟩
            ⟨none, none, none, some (some "Sgt")⟩).rank = v) :=
  update_changes_exactly_supplied_fields
    ⟨[⟨0, 7, some "A", some "B", some 1234567, some "Cpl"⟩], 1⟩ 7
    ⟨none, none, none, some (some "Sgt")⟩
    ⟨0, 7, some "A", some "B", some 1234567, some "Cpl"⟩ rfl (by simp)

/-- Claim C5: with a held collection and an id matching no document,
`get_item_by_id` and `update_item` return an empty result, `delete_item`
returns false, none of them is an error at the DAL layer and the collection
is unchanged; the id-keyed routes turn exactly these outcomes into 404. -/
theorem absent_id_empty_result_404 (s : Store) (id : Int) (u : SoldierUpdate)
    (hpos : 0 < id) (habs : s.docs.find? (fun d => d.ID == id) = none) :
    get_item_by_id (some s) id = .ok none ∧
    update_item (some s) id u = (.ok none, some s) ∧
    delete_item (some s) id = (.ok false, some s) ∧
    read_soldier_by_id (some s) id =
      .error ⟨404, "Soldier with ID " ++ toString id ++ " not found"⟩ ∧
    update_soldier (some s) id u =
      (.error ⟨404, "Soldier with ID " ++ toString id ++ " not found to update"⟩, some s) ∧
    delete_soldier (some s) id =
      (.error ⟨404, "Soldier with ID " ++ toString id ++ " not found to delete"⟩, some s) := by
  have hnot : ¬ id ≤ 0 := by omega
  have hall : ∀ d ∈ s.docs, ¬ (d.ID == id) = true := List.find?_eq_none.mp habs
  have hget : get_item_by_id (some s) id = .ok none := by
    simp [get_item_by_id, habs]
  have hupd : update_item (some s) id u = (.ok none, some s) := by
    by_cases hemp : u.isEmptyDump = true
    · simp [update_item, hemp, hget]
    · have hset := setFirstMatch_no_match id u s.docs hall
      simp [update_item, hemp, hset]
  have hdel : delete_item (some s) id = (.ok false, some s) := by
    have hd := deleteFirstMatch_no_match id s.docs hall
    simp [delete_item, hd]
  refine ⟨hget, hupd, hdel, ?_, ?_, ?_⟩
  · simp [read_soldier_by_id, validate_soldier_id, hnot, hget]
  · simp [update_soldier, validate_soldier_id, hnot, hupd]
  · simp [delete_soldier, validate_soldier_id, hnot, hdel]

theorem absent_id_empty_result_404_witness :
    get_item_by_id (some ⟨[⟨0, 7, some "A", some "B", some 1234567, some "Cpl"⟩], 1⟩) 8 =
      .ok none ∧
    update_item (some ⟨[⟨0, 7, some "A", some "B", some 1234567, some "Cpl"⟩], 1⟩) 8
        ⟨none, none, none, some (some "Sgt")⟩ =
      (.ok none, some ⟨[⟨0, 7, some "A", some "B", some 1234567, some "Cpl"⟩], 1⟩) ∧
    delete_item (some ⟨[⟨0, 7, some "A", some "B", some 1234567, some "Cpl"⟩], 1⟩) 8 =
      (.ok false, some ⟨[⟨0, 7, some "A", some "B", some 1234567, some "Cpl"⟩], 1⟩) ∧
    read_soldier_by_id (some ⟨[⟨0, 7, some "A", some "B", some 1234567, some "Cpl"⟩], 1⟩) 8 =
      .error ⟨404, "Soldier with ID " ++ toString (8 : Int) ++ " not found"⟩ ∧
    update_soldier (some ⟨[⟨0, 7, some "A", some "B", some 1234567, some "Cpl"⟩], 1⟩) 8
        ⟨none, none, none, some (some "Sgt")⟩ =
      (.error ⟨404, "Soldier with ID " ++ toString (8 : Int) ++ " not found to update"⟩,
        some ⟨[⟨0, 7, some "A", some "B", some 1234567, some "Cpl"⟩], 1⟩) ∧
    delete_soldier (some ⟨[⟨0, 7, some "A", some "B", some 1234567, some "Cpl"⟩], 1⟩) 8 =
      (.error ⟨404, "Soldier with ID " ++ toString (8 : Int) ++ " not found to delete"⟩,
        some ⟨[⟨0, 7, some "A", some "B", some 1234567, some "Cpl"⟩], 1⟩) :=
  absent_id_empty_result_404 ⟨[⟨0, 7, some "A", some "B", some 1234567, some "Cpl"⟩], 1⟩ 8
    ⟨none, none, none, some (some "Sgt")⟩ (by decide) (by simp)

/-- Claim C6: creating an item whose ID is not yet in the store (with the
store generating a fresh internal id) succeeds and returns the document
re-read by its generated internal id, and a subsequent `get_item_by_id` on
the same ID returns the same document: the created input fields plus the
generated internal id coerced to string form. -/
theorem create_then_get_round_trip (s : Store) (item : SoldierCreate)
    (habs : s.docs.find? (fun d => d.ID == item.ID) = none)
    (hfresh : ∀ d ∈ s.docs, d.oid ≠ s.nextOid) :
    create_item (some s) item =
      (.ok (some (Doc.toOut (item.toDoc s.nextOid))),
        some ⟨s.docs ++ [item.toDoc s.nextOid], s.nextOid + 1⟩) ∧
    get_item_by_id (some ⟨s.docs ++ [item.toDoc s.nextOid], s.nextOid + 1⟩) item.ID =
      .ok (some (Doc.toOut (item.toDoc s.nextOid))) ∧
    Doc.toOut (item.toDoc s.nextOid) =
      ⟨toString s.nextOid, item.ID, some item.first_name, some item.last_name,
        some item.phone_number, some item.rank⟩ := by
  have hallID : ∀ d ∈ s.docs, ¬ (d.ID == item.ID) = true := List.find?_eq_none.mp habs
  have hnoany : s.docs.any (fun d => d.ID == item.ID) = false := by
    simp only [List.any_eq_false]
    exact hallID
  have hfindoid :
      (s.docs ++ [item.toDoc s.nextOid]).find? (fun d => d.oid == s.nextOid) =
        some (item.toDoc s.nextOid) := by
    rw [List.find?_append]
    have h1 : s.docs.find? (fun d => d.oid == s.nextOid) = none := by
      rw [List.find?_eq_none]
      intro d hd
      simpa using hfresh d hd
    simp [h1, SoldierCreate.toDoc]
  have hfindID :
      (s.docs ++ [item.toDoc s.nextOid]).find? (fun d => d.ID == item.ID) =
        some (item.toDoc s.nextOid) := by
    rw [List.find?_append]
    simp [habs, SoldierCreate.toDoc]
  refine ⟨?_, ?_, rfl⟩
  · simp [create_item, hnoany, hfindoid]
  · simp [get_item_by_id, hfindID]

theorem create_then_get_round_trip_witness :
    create_item (some ⟨[], 0⟩) ⟨"A", "B", 1234567, "Cpl", 7⟩ =
      (.ok (some (Doc.toOut (SoldierCreate.toDoc ⟨"A", "B", 1234567, "Cpl", 7⟩ 0))),
        some ⟨[] ++ [SoldierCreate.toDoc ⟨"A", "B", 1234567, "Cpl", 7⟩ 0], 0 + 1⟩) ∧
    get_item_by_id (some ⟨[] ++ [SoldierCreate.toDoc ⟨"A", "B", 1234567, "Cpl", 7⟩ 0], 0 + 1⟩)
        (⟨"A", "B", 1234567, "Cpl", 7⟩ : SoldierCreate).ID =
      .ok (some (Doc.toOut (SoldierCreate.toDoc ⟨"A", "B", 1234567, "Cpl", 7⟩ 0))) ∧
    Doc.toOut (SoldierCreate.toDoc ⟨"A", "B", 1234567, "Cpl", 7⟩ 0) =
      ⟨toString 0, 7, some "A", some "B", some 1234567, some "Cpl"⟩ :=
  create_then_get_round_trip ⟨[], 0⟩ ⟨"A", "B", 1234567, "Cpl", 7⟩ rfl
    (by intro d hd; simp at hd)

/-- Claim C8 counterexample: run connect on a fresh loader with the client
construction and ping succeeding but the index creation failing. This is a
failure during the connect sequence, yet the loader keeps its client,
database and collection handles and the unique index is not ensured — the
claim that any failure during the connect sequence leaves the client
disconnected is false on the code, because the index-setup step catches its
own store fault and only logs it. -/
theorem connect_index_failure_keeps_handles :
    (connect DataLoader.init true ⟨[], 0⟩ false).client = some true ∧
    (connect DataLoader.init true ⟨[], 0⟩ false).db = true ∧
    (connect DataLoader.init true ⟨[], 0⟩ false).collection = some ⟨[], 0⟩ ∧
    (connect DataLoader.init true ⟨[], 0⟩ false).indexEnsured = false :=
  ⟨rfl, rfl, rfl, rfl⟩

/-- Claim C8 amended: connect performs a single attempt with the 5000 ms
server-selection timeout and a liveness ping; a failure of the client
construction or the ping leaves no connection, database or collection
handle, without raising to the caller; on a successful ping the handles are
all set and the unique index on ID is ensured exactly when the index
creation succeeds, an index-creation failure being swallowed inside index
setup with all handles retained. -/
theorem connect_single_attempt_behavior (dl : DataLoader) (s0 : Store) (idxOk : Bool) :
    connectTimeoutMS = 5000 ∧
    (connect dl false s0 idxOk).client = none ∧
    (connect dl false s0 idxOk).db = false ∧
    (connect dl false s0 idxOk).collection = none ∧
    (connect dl true s0 idxOk).client = some true ∧
    (connect dl true s0 idxOk).db = true ∧
    (connect dl true s0 idxOk).collection = some s0 ∧
    (connect dl true s0 idxOk).indexEnsured = (idxOk || dl.indexEnsured) := by
  cases idxOk <;> simp [connect, setup_indexes, connectTimeoutMS]

/-- Claim C9: disconnect maps a held client handle to a closed one and a
missing one to nothing, and never reassigns the db or collection handles or
the index flag; consequently, after a successful connect followed by
disconnect the collection handle is still held, the connectivity
precondition gate of the repository operations still passes (shown on
`get_item_by_id`, whose gate is the shared collection-is-None check), and
GET /health still reports the database as connected. -/
theorem disconnect_never_clears_handles (dl : DataLoader) (s0 : Store) (idxOk : Bool) :
    (∀ d : DataLoader, (disconnect d).client = d.client.map (fun _ => false)) ∧
    (∀ d : DataLoader, (disconnect d).db = d.db) ∧
    (∀ d : DataLoader, (disconnect d).collection = d.collection) ∧
    (∀ d : DataLoader, (disconnect d).indexEnsured = d.indexEnsured) ∧
    (disconnect (connect dl true s0 idxOk)).collection = some s0 ∧
    detailed_health_check (disconnect (connect dl true s0 idxOk)) = .ok ("ok", "connected") ∧
    ∀ id : Int,
      get_item_by_id (disconnect (connect dl true s0 idxOk)).collection id =
        .ok ((s0.docs.find? (fun d => d.ID == id)).map Doc.toOut) := by
  have hcl : ∀ d : DataLoader, (disconnect d).client = d.client.map (fun _ => false) := by
    intro d; cases hd : d.client <;> simp [disconnect, hd]
  have hdb : ∀ d : DataLoader, (disconnect d).db = d.db := by
    intro d; cases hd : d.client <;> simp [disconnect, hd]
  have hco : ∀ d : DataLoader, (disconnect d).collection = d.collection := by
    intro d; cases hd : d.client <;> simp [disconnect, hd]
  have hix : ∀ d : DataLoader, (disconnect d).indexEnsured = d.indexEnsured := by
    intro d; cases hd : d.client <;> simp [disconnect, hd]
  have hconn : (connect dl true s0 idxOk).collection = some s0 := by
    cases idxOk <;> simp [connect, setup_indexes]
  have hcoll : (disconnect (connect dl true s0 idxOk)).collection = some s0 := by
    rw [hco, hconn]
  refine ⟨hcl, hdb, hco, hix, hcoll, ?_, ?_⟩
  · unfold detailed_health_check
    rw [hcoll]
  · intro id
    rw [hcoll]
    rfl

/-- Claim C10: a field explicitly supplied as null in the update input is
part of the computed update set (the dump is non-empty, so no short-circuit
to get happens) and the update writes null over the prior value of that
field in the stored record, even though the create shape always stores a
non-null value for every field. -/
theorem update_explicit_null_overwrites (s : Store) (id : Int) (u : SoldierUpdate)
    (d : Doc)
    (hfind : s.docs.find? (fun x => x.ID == id) = some d)
    (hnull : u.first_name = some none ∨ u.last_name = some none ∨
      u.phone_number = some none ∨ u.rank = some none) :
    u.isEmptyDump = false ∧
    (∃ l1 l2, s.docs = l1 ++ d :: l2 ∧
      update_item (some s) id u =
        (.ok (some (Doc.toOut (d.applySet u))),
          some ⟨l1 ++ d.applySet u :: l2, s.nextOid⟩)) ∧
    (u.first_name = some none → (d.applySet u).first_name = none) ∧
    (u.last_name = some none → (d.applySet u).last_name = none) ∧
    (u.phone_number = some none → (d.applySet u).phone_number = none) ∧
    (u.rank = some none → (d.applySet u).rank = none) ∧
    ∀ (c : SoldierCreate) (oid : Nat),
      (c.toDoc oid).first_name = some c.first_name ∧
      (c.toDoc oid).last_name = some c.last_name ∧
      (c.toDoc oid).phone_number = some c.phone_number ∧
      (c.toDoc oid).rank = some c.rank := by
  have hne : u.isEmptyDump = false := by
    rcases hnull with h | h | h | h <;> simp [SoldierUpdate.isEmptyDump, h]
  obtain ⟨l1, l2, hsplit, hset⟩ := setFirstMatch_found id u s.docs d hfind
  refine ⟨hne, ⟨l1, l2, hsplit, by simp [update_item, hne, hset]⟩,
    ?_, ?_, ?_, ?_, fun c oid => ⟨rfl, rfl, rfl, rfl⟩⟩ <;>
  · intro h
    simp [Doc.applySet, h]

theorem update_explicit_null_overwrites_witness :
    (⟨none, none, none, some none⟩ : SoldierUpdate).isEmptyDump = false ∧
    (∃ l1 l2,
      (⟨[⟨0, 7, some "A", some "B", some 1234567, some "Cpl"⟩], 1⟩ : Store).docs =
        l1 ++ (⟨0, 7, some "A", some "B", some 1234567, some "Cpl"⟩ : Doc) :: l2 ∧
      update_item (some ⟨[⟨0, 7, some "A", some "B", some 1234567, some "Cpl"⟩], 1⟩) 7
          ⟨none, none, none, some none⟩ =
        (.ok (some (Doc.toOut (Doc.applySet
            ⟨0, 7, some "A", some "B", some 1234567, some "Cpl"⟩
            ⟨none, none, none, some none⟩))),
          some ⟨l1 ++ Doc.applySet ⟨0, 7, some "A", some "B", some 1234567, some "Cpl"⟩
              ⟨none, none, none, some none⟩ :: l2, 1⟩)) ∧
    ((⟨none, none, none, some none⟩ : SoldierUpdate).first_name = some none →
      (Doc.applySet ⟨0, 7, some "A", some "B", some 1234567, some "Cpl"⟩
          ⟨none, none, none, some none⟩).first_name = none) ∧
    ((⟨none, none, none, some none⟩ : SoldierUpdate).last_name = some none →
      (Doc.applySet ⟨0, 7, some "A", some "B", some 1234567, some "Cpl"⟩
          ⟨none, none, none, some none⟩).last_name = none) ∧
    ((⟨none, none, none, some none⟩ : SoldierUpdate).phone_number = some none →
      (Doc.applySet ⟨0, 7, some "A", some "B", some 1234567, some "Cpl"⟩
          ⟨none, none, none, some none⟩).phone_number = none) ∧
    ((⟨none, none, none, some none⟩ : SoldierUpdate).rank = some none →
      (Doc.applySet ⟨0, 7, some "A", some "B", some 1234567, some "Cpl"⟩
          ⟨none, none, none, some none⟩).rank = none) ∧
    ∀ (c : SoldierCreate) (oid : Nat),
      (c.toDoc oid).first_name = some c.first_name ∧
      (c.toDoc oid).last_name = some c.last_name ∧
      (c.toDoc oid).phone_number = some c.phone_number ∧
      (c.toDoc oid).rank = some c.rank :=
  update_explicit_null_overwrites
    ⟨[⟨0, 7, some "A", some "B", some 1234567, some "Cpl"⟩], 1⟩ 7
    ⟨none, none, none, some none⟩
    ⟨0, 7, some "A", some "B", some 1234567, some "Cpl"⟩ (by simp)
    (Or.inr (Or.inr (Or.inr rfl)))

end MongoCrud
